import Mathlib

/-!
Verification of the Platify website server (Go, two variants of `main.go`:
a Gin-based variant and a stdlib `net/http` variant) against its
natural-language specification.

The Go code is shallowly embedded: the network layer is represented by the
observable outcome of the single upstream HTTP call (transport error, or a
status code together with the result of attempting to JSON-decode the body),
and each Go function that consumes it becomes a pure Lean function with the
same branch structure.  Go `float64` values are modelled as exact rationals;
Go strings are Lean `String`s (the inputs involved are ASCII).
-/

namespace Platify

/-- Nutrients record (`Nutrients` in main.go); `float64` fields are modelled
as exact rationals. -/
structure Nutrients where
  energy : ℚ
  carbs : ℚ
  proteins : ℚ
  fats : ℚ
deriving DecidableEq

/-- Tag record (`Tag` in main.go). -/
structure Tag where
  name : String
  lightColor : String
  darkColor : String
deriving DecidableEq

/-- Ingredient record (`Ingredient` in main.go). -/
structure Ingredient where
  name : String
  quantity : String
  unit : String
deriving DecidableEq

/-- Direction record (`Direction` in main.go). -/
structure Direction where
  heading : String
  text : String
deriving DecidableEq

/-- NutritionItem record (`NutritionItem` in main.go). -/
structure NutritionItem where
  name : String
  thumbnail : String
  quantity : ℚ
  unit : String
  nutrients : Nutrients
deriving DecidableEq

/-- ShoppingItem record (`ShoppingItem` in main.go). -/
structure ShoppingItem where
  name : String
deriving DecidableEq

/-- Section record (`Section` in main.go). -/
structure Section where
  title : String
  ingredients : List Ingredient
  items : List NutritionItem
  directions : List Direction
  videoLink : String
  list : List ShoppingItem
deriving DecidableEq

/-- Recipe record (`Recipe` in main.go). -/
structure Recipe where
  id : String
  name : String
  description : String
  image : String
  boards : List String
  tags : List Tag
  sections : List Section
deriving DecidableEq

/-- Wrapper object the recipe endpoint returns (`RecipeResponse` in main.go). -/
structure RecipeResponse where
  recipe : Recipe
deriving DecidableEq

/-- Product record (`Product` in main.go). -/
structure Product where
  id : String
  name : String
  thumbnail : String
  unit : String
  nutrients : Nutrients
deriving DecidableEq

/-- Observable outcome of one upstream HTTP round trip: either the transport
layer failed (DNS, connection, timeout — `http.DefaultClient.Do` returned an
error), or a response arrived with a status code and a body.  The body is
represented by what JSON-decoding it into the expected shape would yield
(`β` is `Except String α`: decode error message, or the decoded value). -/
inductive HttpOutcome (β : Type) where
  | transportError : String → HttpOutcome β
  | response : Nat → β → HttpOutcome β
deriving DecidableEq

/-- Embedding of `fetchRecipe` (main.go lines 169-196 / 459-483), starting
from the observable outcome of the HTTP call.  Mirrors the Go branch order:
transport error is returned as-is; status 404 returns `(nil, nil)` (here
`.ok none`); any other non-200 status returns the error
`"API returned status %d"`; on 200 the body is decoded into a
`RecipeResponse` and the inner `Recipe` is returned, a decode error being
returned as-is. -/
def fetchRecipeResult (o : HttpOutcome (Except String RecipeResponse)) :
    Except String (Option Recipe) :=
  match o with
  | .transportError e => .error e
  | .response status body =>
      if status = 404 then .ok none
      else if status ≠ 200 then .error ("API returned status " ++ toString status)
      else
        match body with
        | .error e => .error e
        | .ok rr => .ok (some rr.recipe)

/-- Embedding of `fetchProduct` (main.go lines 198-225), same structure as
`fetchRecipeResult` but the body decodes directly into a `Product`. -/
def fetchProductResult (o : HttpOutcome (Except String Product)) :
    Except String (Option Product) :=
  match o with
  | .transportError e => .error e
  | .response status body =>
      if status = 404 then .ok none
      else if status ≠ 200 then .error ("API returned status " ++ toString status)
      else
        match body with
        | .error e => .error e
        | .ok p => .ok (some p)

/-- Embedding of `fetchProducts` (stdlib variant, main.go lines 485-506).
Note: unlike `fetchRecipe` and `fetchProduct`, there is no 404 branch —
every non-200 status, 404 included, returns the error
`"API returned status %d"`. -/
def fetchProductsResult (o : HttpOutcome (Except String (List Product))) :
    Except String (List Product) :=
  match o with
  | .transportError e => .error e
  | .response status body =>
      if status ≠ 200 then .error ("API returned status " ++ toString status)
      else body

/-- Rendered HTTP response of a content handler: either a content page
(status, template name, record bound to the template), or the shared
error/not-found page rendered with a status, a title and a message
(`renderError` in main.go). -/
inductive Rendered (α : Type) where
  | page : Nat → String → α → Rendered α
  | errorPage : Nat → String → String → Rendered α
deriving DecidableEq

/-- Embedding of the Gin-variant `handleRecipe` (main.go lines 233-252):
fetch error renders the shared template with a generic message and
status 500; `nil` recipe renders it with a resource-specific not-found
title/message and status 404; otherwise the `recipe` template is rendered
bound to the record with status 200. -/
def handleRecipe (res : Except String (Option Recipe)) : Rendered Recipe :=
  match res with
  | .error _ =>
      .errorPage 500 "Could not load recipe"
        "The recipe could not be loaded. Please try again later."
  | .ok none =>
      .errorPage 404 "Recipe not found"
        "This recipe does not exist or is no longer available."
  | .ok (some r) => .page 200 "recipe" r

/-- Embedding of the Gin-variant `handleProduct` (main.go lines 254-273). -/
def handleProduct (res : Except String (Option Product)) : Rendered Product :=
  match res with
  | .error _ =>
      .errorPage 500 "Could not load product"
        "The product could not be loaded. Please try again later."
  | .ok none =>
      .errorPage 404 "Product not found"
        "This product does not exist or is no longer available."
  | .ok (some p) => .page 200 "product" p

/-- A concrete recipe used in witnesses. -/
def exRecipe : Recipe :=
  { id := "r1", name := "Pancakes", description := "", image := "",
    boards := [], tags := [], sections := [] }

/-- A concrete product used in witnesses. -/
def exProduct : Product :=
  { id := "p1", name := "Flour", thumbnail := "", unit := "g",
    nutrients := { energy := 0, carbs := 0, proteins := 0, fats := 0 } }

/-- Claim C1: for every completed request to the recipe or product content
route, the handler response is the total, deterministic function of the
fetch outcome given by the three-state table — a record renders the content
template bound to that record with status 200, not-found renders the shared
template with a resource-specific title/message and status 404, a transient
error renders the shared template with a generic message and status 500 —
and exactly one of the three outcomes occurs per request.  Each outcome is
characterised by an `iff`, so the three outcomes are mutually exclusive and
exhaustive. -/
theorem handler_tristate (res : Except String (Option Recipe))
    (resP : Except String (Option Product)) :
    ((∃ r, handleRecipe res = Rendered.page 200 "recipe" r) ∨
      handleRecipe res = Rendered.errorPage 404 "Recipe not found"
        "This recipe does not exist or is no longer available." ∨
      handleRecipe res = Rendered.errorPage 500 "Could not load recipe"
        "The recipe could not be loaded. Please try again later.") ∧
    (∀ r, handleRecipe res = Rendered.page 200 "recipe" r ↔
        res = Except.ok (some r)) ∧
    (handleRecipe res = Rendered.errorPage 404 "Recipe not found"
        "This recipe does not exist or is no longer available." ↔
      res = Except.ok none) ∧
    (handleRecipe res = Rendered.errorPage 500 "Could not load recipe"
        "The recipe could not be loaded. Please try again later." ↔
      ∃ c, res = Except.error c) ∧
    ((∃ p, handleProduct resP = Rendered.page 200 "product" p) ∨
      handleProduct resP = Rendered.errorPage 404 "Product not found"
        "This product does not exist or is no longer available." ∨
      handleProduct resP = Rendered.errorPage 500 "Could not load product"
        "The product could not be loaded. Please try again later.") ∧
    (∀ p, handleProduct resP = Rendered.page 200 "product" p ↔
        resP = Except.ok (some p)) ∧
    (handleProduct resP = Rendered.errorPage 404 "Product not found"
        "This product does not exist or is no longer available." ↔
      resP = Except.ok none) ∧
    (handleProduct resP = Rendered.errorPage 500 "Could not load product"
        "The product could not be loaded. Please try again later." ↔
      ∃ c, resP = Except.error c) := by
  constructor
  · rcases res with e | r
    · right; right; rfl
    · rcases r with _ | r
      · right; left; rfl
      · left; exact ⟨r, rfl⟩
  refine ⟨?_, ?_, ?_, ?_, ?_, ?_, ?_⟩
  · intro r
    rcases res with e | x
    · simp [handleRecipe]
    · rcases x with _ | x <;> simp [handleRecipe]
  · rcases res with e | x
    · simp [handleRecipe]
    · rcases x with _ | x <;> simp [handleRecipe]
  · rcases res with e | x
    · simp [handleRecipe]
    · rcases x with _ | x <;> simp [handleRecipe]
  · rcases resP with e | x
    · right; right; rfl
    · rcases x with _ | p
      · right; left; rfl
      · left; exact ⟨p, rfl⟩
  · intro p
    rcases resP with e | x
    · simp [handleProduct]
    · rcases x with _ | x <;> simp [handleProduct]
  · rcases resP with e | x
    · simp [handleProduct]
    · rcases x with _ | x <;> simp [handleProduct]
  · rcases resP with e | x
    · simp [handleProduct]
    · rcases x with _ | x <;> simp [handleProduct]

/-- Witness for C1: the characterisation evaluated at concrete fetch
outcomes — a found recipe renders the content page, a missing product
renders the 404 page. -/
theorem handler_tristate_witness :
    handleRecipe (Except.ok (some exRecipe)) = Rendered.page 200 "recipe" exRecipe ∧
    handleProduct (Except.ok none) = Rendered.errorPage 404 "Product not found"
      "This product does not exist or is no longer available." :=
  ⟨((handler_tristate (Except.ok (some exRecipe)) (Except.ok none)).2.1 exRecipe).mpr rfl,
   ((handler_tristate (Except.ok (some exRecipe)) (Except.ok none)).2.2.2.2.2.2.1).mpr rfl⟩

/-- Claim C2 counterexample: for the full product list, an upstream HTTP 404
is classified as a transient error (`fetchProducts` has no 404 branch), not
as NotFound — so 404 is not "not an error" for every resource kind. -/
theorem fetchProducts_404_is_error :
    fetchProductsResult (HttpOutcome.response 404 (Except.ok [])) =
      Except.error "API returned status 404" := rfl

/-- Claim C2 (amended): for recipe by id and product by id, an upstream
HTTP 404 is classified as NotFound and is the only non-200 status that is
not an error, while every other non-200 status is a transient error; for
the full product list, every non-200 status — 404 included — is classified
as a transient error. -/
theorem fetch_status_classification (status : Nat)
    (b : Except String RecipeResponse) (bp : Except String Product)
    (bl : Except String (List Product)) :
    (status = 404 →
      fetchRecipeResult (HttpOutcome.response status b) = Except.ok none ∧
      fetchProductResult (HttpOutcome.response status bp) = Except.ok none) ∧
    (status ≠ 404 → status ≠ 200 →
      fetchRecipeResult (HttpOutcome.response status b) =
        Except.error ("API returned status " ++ toString status) ∧
      fetchProductResult (HttpOutcome.response status bp) =
        Except.error ("API returned status " ++ toString status)) ∧
    (status ≠ 200 →
      fetchProductsResult (HttpOutcome.response status bl) =
        Except.error ("API returned status " ++ toString status)) := by
  refine ⟨?_, ?_, ?_⟩
  · intro h
    subst h
    exact ⟨rfl, rfl⟩
  · intro h4 h2
    constructor <;> simp [fetchRecipeResult, fetchProductResult, h4, h2]
  · intro h2
    simp [fetchProductsResult, h2]

/-- Witness for C2: the classification evaluated at statuses 404 and 503. -/
theorem fetch_status_classification_witness :
    fetchRecipeResult (HttpOutcome.response 404 (Except.ok ⟨exRecipe⟩)) = Except.ok none ∧
    fetchProductResult (HttpOutcome.response 503 (Except.ok exProduct)) =
      Except.error "API returned status 503" ∧
    fetchProductsResult (HttpOutcome.response 503 (Except.ok [])) =
      Except.error "API returned status 503" :=
  ⟨((fetch_status_classification 404 (Except.ok ⟨exRecipe⟩) (Except.ok exProduct)
      (Except.ok [])).1 rfl).1,
   ((fetch_status_classification 503 (Except.ok ⟨exRecipe⟩) (Except.ok exProduct)
      (Except.ok [])).2.1 (by decide) (by decide)).2,
   (fetch_status_classification 503 (Except.ok ⟨exRecipe⟩) (Except.ok exProduct)
      (Except.ok [])).2.2 (by decide)⟩

/-- Claim C3: an upstream 200 whose body fails to decode is classified as a
transient error and the record is never rendered (the handler produces the
500 error page, not a content page); and a fetched record is either fully
present or absent — whenever the fetch yields a record, the outcome was a
200 response whose body fully decoded into exactly that record. -/
theorem fetch_decode_failure (e : String) :
    fetchRecipeResult (HttpOutcome.response 200 (Except.error e)) = Except.error e ∧
    fetchProductResult (HttpOutcome.response 200 (Except.error e)) = Except.error e ∧
    handleRecipe (fetchRecipeResult (HttpOutcome.response 200 (Except.error e))) =
      Rendered.errorPage 500 "Could not load recipe"
        "The recipe could not be loaded. Please try again later." ∧
    handleProduct (fetchProductResult (HttpOutcome.response 200 (Except.error e))) =
      Rendered.errorPage 500 "Could not load product"
        "The product could not be loaded. Please try again later." ∧
    (∀ (o : HttpOutcome (Except String RecipeResponse)) (r : Recipe),
      fetchRecipeResult o = Except.ok (some r) →
      ∃ s rr, o = HttpOutcome.response s (Except.ok rr) ∧ s = 200 ∧ r = rr.recipe) ∧
    (∀ (o : HttpOutcome (Except String Product)) (p : Product),
      fetchProductResult o = Except.ok (some p) →
      ∃ s q, o = HttpOutcome.response s (Except.ok q) ∧ s = 200 ∧ p = q) := by
  refine ⟨rfl, rfl, rfl, rfl, ?_, ?_⟩
  · intro o r h
    rcases o with e' | ⟨s, body⟩
    · simp [fetchRecipeResult] at h
    · by_cases h4 : s = 404
      · simp [fetchRecipeResult, h4] at h
      · by_cases h2 : s = 200
        · subst h2
          rcases body with e' | rr
          · simp [fetchRecipeResult] at h
          · simp [fetchRecipeResult] at h
            exact ⟨200, rr, rfl, rfl, h.symm⟩
        · simp [fetchRecipeResult, h4, h2] at h
  · intro o p h
    rcases o with e' | ⟨s, body⟩
    · simp [fetchProductResult] at h
    · by_cases h4 : s = 404
      · simp [fetchProductResult, h4] at h
      · by_cases h2 : s = 200
        · subst h2
          rcases body with e' | q
          · simp [fetchProductResult] at h
          · simp [fetchProductResult] at h
            exact ⟨200, q, rfl, rfl, h.symm⟩
        · simp [fetchProductResult, h4, h2] at h

/-- Witness for C3: the full-presence property evaluated at a concrete 200
response that fully decodes. -/
theorem fetch_decode_failure_witness :
    fetchRecipeResult (HttpOutcome.response 200 (Except.error "unexpected EOF")) =
      Except.error "unexpected EOF" ∧
    ∃ s rr, (HttpOutcome.response 200 (Except.ok (⟨exRecipe⟩ : RecipeResponse)) :
        HttpOutcome (Except String RecipeResponse)) =
      HttpOutcome.response s (Except.ok rr) ∧ s = 200 ∧ exRecipe = rr.recipe :=
  ⟨(fetch_decode_failure "unexpected EOF").1,
   (fetch_decode_failure "unexpected EOF").2.2.2.2.1
     (HttpOutcome.response 200 (Except.ok ⟨exRecipe⟩)) exRecipe rfl⟩

/-- Embedding of the URL composition in `fetchRecipe` (main.go lines 170 and
460): the caller-supplied identifier is concatenated onto the base URL and
resource path with plain string `+`, with no escaping of any kind. -/
def buildRecipeURL (base id : String) : String := base ++ "/recipes/" ++ id

/-- Uppercase hexadecimal digit, as produced by Go percent-encoding. -/
def hexUpper (n : Nat) : Char :=
  if n < 10 then Char.ofNat (48 + n) else Char.ofNat (55 + n)

/-- Percent-encoding of one ASCII byte, `%XX` with uppercase hex. -/
def escChar (c : Char) : List Char :=
  ['%', hexUpper (c.toNat / 16), hexUpper (c.toNat % 16)]

/-- Whether Go `url.PathEscape` leaves the character unescaped: ASCII
alphanumerics, the unreserved marks `- _ . ~`, and the reserved characters
`$ & + : = @` allowed inside a path segment; everything else — in
particular `/`, `;`, `,` and `?` — is percent-encoded. -/
def keepInPathSegment (c : Char) : Bool :=
  let n := c.toNat
  decide (97 ≤ n ∧ n ≤ 122) || decide (65 ≤ n ∧ n ≤ 90) ||
  decide (48 ≤ n ∧ n ≤ 57) ||
  c == '-' || c == '_' || c == '.' || c == '~' ||
  c == '$' || c == '&' || c == '+' || c == ':' || c == '=' || c == '@'

/-- Model of Go `url.PathEscape` on ASCII strings: each character is kept
or replaced by its `%XX` encoding. -/
def goPathEscape (s : String) : String :=
  String.mk (s.data.flatMap (fun c => if keepInPathSegment c then [c] else escChar c))

/-- Claim C4, evaluated at the failing input: the Upstream Client does not
path-escape the identifier before composing the request URL.  For the
identifier `1?x=2` the code builds `…/recipes/1?x=2`, where the unescaped
`?` starts a query string and smuggles the request onto the path
`/recipes/1`; path-escaping as the spec requires would build
`…/recipes/1%3Fx=2` instead. -/
theorem buildRecipeURL_no_escaping :
    buildRecipeURL "https://api.platify.eu" "1?x=2" =
      "https://api.platify.eu/recipes/1?x=2" ∧
    goPathEscape "1?x=2" = "1%3Fx=2" ∧
    buildRecipeURL "https://api.platify.eu" "1?x=2" ≠
      "https://api.platify.eu" ++ "/recipes/" ++ goPathEscape "1?x=2" := by
  refine ⟨rfl, by decide, by decide⟩

/-- Embedding of the `formatQty` template helper (main.go lines 117-128 and
432-443): joins a quantity and a unit into a display string, omitting blank
parts. -/
def formatQty (qty unit : String) : String :=
  if qty = "" ∧ unit = "" then ""
  else if unit = "" then qty
  else if qty = "" then unit
  else qty ++ " " ++ unit

/-- Claim C5: `formatQty` joins quantity and unit with a single space while
omitting blank parts — a blank unit yields the quantity alone, a blank
quantity yields the unit alone, two non-blank parts are joined with one
space — including the four concrete cases listed in the spec. -/
theorem formatQty_spec (q u : String) :
    formatQty q "" = q ∧
    formatQty "" u = u ∧
    (q ≠ "" → u ≠ "" → formatQty q u = q ++ " " ++ u) ∧
    formatQty "" "" = "" ∧
    formatQty "2" "" = "2" ∧
    formatQty "" "cups" = "cups" ∧
    formatQty "2" "cups" = "2 cups" := by
  refine ⟨?_, ?_, ?_, rfl, rfl, rfl, rfl⟩
  · by_cases hq : q = "" <;> simp [formatQty, hq]
  · by_cases hu : u = "" <;> simp [formatQty, hu]
  · intro hq hu
    simp [formatQty, hq, hu]

/-- Witness for C5: the general single-space property evaluated at a
concrete non-blank pair. -/
theorem formatQty_spec_witness : formatQty "3" "tbsp" = "3" ++ " " ++ "tbsp" :=
  (formatQty_spec "3" "tbsp").2.2.1 (by decide) (by decide)

/-- Decimal digits of a natural number, most significant first, written to
the front of an accumulator (the embedding of Go `fmt.Sprintf("%d", n)` for
non-negative values).  The fuel argument bounds the recursion and is always
sufficient when called with `n + 1`. -/
def natDecAux : Nat → Nat → List Char → List Char
  | 0, _, acc => acc
  | fuel + 1, n, acc =>
      if n < 10 then Nat.digitChar n :: acc
      else natDecAux fuel (n / 10) (Nat.digitChar (n % 10) :: acc)

/-- Decimal digit string of a natural number. -/
def natDec (n : Nat) : List Char := natDecAux (n + 1) n []

/-- Embedding of Go `fmt.Sprintf("%d", i)` on integers: optional minus sign
followed by the decimal digits of the absolute value. -/
def intDecimal (i : ℤ) : String :=
  if i < 0 then String.mk ('-' :: natDec i.natAbs) else String.mk (natDec i.toNat)

/-- Truncation of a rational toward zero, the embedding of Go `int(f)` on an
exactly-represented value. -/
def goTrunc (q : ℚ) : ℤ := Int.tdiv q.num (q.den : ℤ)

/-- Round the fraction `a / b` (with `b > 0`) to the nearest integer, ties
to even — the rounding Go `fmt` uses when formatting with `%.1f`.  Computed
with integer arithmetic: `fl` is the floor and `rem` the remainder, and
`2 * rem` is compared against `b`. -/
def roundHalfEvenFrac (a b : ℤ) : ℤ :=
  let fl := Int.fdiv a b
  let rem := a - fl * b
  if 2 * rem < b then fl
  else if b < 2 * rem then fl + 1
  else if fl % 2 = 0 then fl else fl + 1

/-- Embedding of Go `fmt.Sprintf("%.1f", f)` on an exactly-represented
value: the value is scaled by ten (as the fraction `num * 10 / den`),
rounded to the nearest integer (ties to even), and printed as integer part,
decimal point, and one digit. -/
def formatOneDec (q : ℚ) : String :=
  let s := roundHalfEvenFrac (q.num * 10) (q.den : ℤ)
  let m := s.natAbs
  (if s < 0 then "-" else "") ++ String.mk (natDec (m / 10)) ++ "." ++
    String.mk (natDec (m % 10))

/-- Embedding of the `formatFloat` template helper (main.go lines 130-135
and 444-449): if `f == float64(int(f))` the value is printed with `%d`,
otherwise with `%.1f`.  Go `float64` is modelled as an exact rational. -/
def formatFloat (f : ℚ) : String :=
  if f = ((goTrunc f : ℤ) : ℚ) then intDecimal (goTrunc f) else formatOneDec f

/-- Nat.digitChar never produces a decimal point. -/
theorem digitChar_ne_dot (m : Nat) : Nat.digitChar m ≠ '.' := by
  by_cases h : m < 16
  · interval_cases m <;> decide
  · have h2 : Nat.digitChar m = '*' := by
      unfold Nat.digitChar
      repeat rw [if_neg (by omega)]
    rw [h2]
    decide

/-- Every character produced by `natDecAux` is a digit character or comes
from the accumulator. -/
theorem mem_natDecAux (fuel : Nat) :
    ∀ (n : Nat) (acc : List Char) (c : Char), c ∈ natDecAux fuel n acc →
      c ∈ acc ∨ ∃ m, c = Nat.digitChar m := by
  induction fuel with
  | zero => intro n acc c h; exact Or.inl h
  | succ fuel ih =>
      intro n acc c h
      unfold natDecAux at h
      by_cases hn : n < 10
      · rw [if_pos hn] at h
        rcases List.mem_cons.mp h with h | h
        · exact Or.inr ⟨n, h⟩
        · exact Or.inl h
      · rw [if_neg hn] at h
        rcases ih (n / 10) (Nat.digitChar (n % 10) :: acc) c h with h | h
        · rcases List.mem_cons.mp h with h | h
          · exact Or.inr ⟨n % 10, h⟩
          · exact Or.inl h
        · exact Or.inr h

/-- The decimal digit string of a natural number contains no decimal
point. -/
theorem natDec_no_dot (n : Nat) : ('.' : Char) ∉ natDec n := by
  intro h
  rcases mem_natDecAux (n + 1) n [] '.' h with h | ⟨m, hm⟩
  · exact absurd h (List.not_mem_nil '.')
  · exact digitChar_ne_dot m hm.symm

/-- Claim C6: `formatFloat` renders floats without trailing zeros —
`3.0 → "3"`, `3.5 → "3.5"`, `0.0 → "0"` — and for every whole-number input
the output carries no decimal point. -/
theorem formatFloat_spec :
    formatFloat 3 = "3" ∧
    formatFloat ((7 : ℚ) / 2) = "3.5" ∧
    formatFloat 0 = "0" ∧
    ∀ n : ℤ, ('.' : Char) ∉ (formatFloat ((n : ℤ) : ℚ)).data := by
  refine ⟨by decide, ?_, by decide, ?_⟩
  · rw [show ((7 : ℚ)) = ((7 : ℤ) : ℚ) by norm_num,
      show ((2 : ℚ)) = ((2 : ℤ) : ℚ) by norm_num, Rat.intCast_div_eq_divInt]
    decide
  intro n h
  have htr : goTrunc ((n : ℤ) : ℚ) = n := by
    unfold goTrunc
    rw [Rat.num_intCast, Rat.den_intCast]
    exact Int.tdiv_one n
  rw [formatFloat, htr, if_pos rfl] at h
  unfold intDecimal at h
  by_cases hn : n < 0
  · rw [if_pos hn] at h
    rcases List.mem_cons.mp h with h | h
    · exact absurd h.symm (by decide)
    · exact natDec_no_dot _ h
  · rw [if_neg hn] at h
    exact natDec_no_dot _ h

/-- Witness for C6: the whole-number clause evaluated at a concrete
integer. -/
theorem formatFloat_spec_witness :
    ('.' : Char) ∉ (formatFloat (((-12 : ℤ) : ℤ) : ℚ)).data :=
  formatFloat_spec.2.2.2 (-12)

/-- Modelled from the spec: the four accepted image kinds of the Image
Ingestor's fixed allow-list (spec section 4.3, step 3).  The Image Ingestor
itself is not present in the `src/` tree; it is modelled from the spec's
words. -/
inductive ImageKind where
  | jpeg
  | png
  | gif
  | webp
deriving DecidableEq

/-- Modelled from the spec: file extension stored for each accepted kind. -/
def extOf : ImageKind → String
  | .jpeg => ".jpg"
  | .png => ".png"
  | .gif => ".gif"
  | .webp => ".webp"

/-- PNG magic number (`\x89PNG\r\n\x1a\n`). -/
def pngMagic : List Nat := [0x89, 0x50, 0x4E, 0x47, 0x0D, 0x0A, 0x1A, 0x0A]

/-- JPEG magic number (`\xff\xd8\xff`). -/
def jpegMagic : List Nat := [0xFF, 0xD8, 0xFF]

/-- GIF87a magic number. -/
def gif87Magic : List Nat := [0x47, 0x49, 0x46, 0x38, 0x37, 0x61]

/-- GIF89a magic number. -/
def gif89Magic : List Nat := [0x47, 0x49, 0x46, 0x38, 0x39, 0x61]

/-- RIFF container magic number (first four bytes of a WebP file). -/
def riffMagic : List Nat := [0x52, 0x49, 0x46, 0x46]

/-- WEBP tag (bytes 8-11 of a WebP file). -/
def webpTag : List Nat := [0x57, 0x45, 0x42, 0x50]

/-- Modelled from the spec: magic-number sniffing over the first 512 bytes
of the uploaded stream (spec section 4.3, step 2) — the client-declared
MIME type and filename are never consulted.  Returns the matched kind of
the allow-list, or `none` when no signature matches. -/
def sniffImage (stream : List Nat) : Option ImageKind :=
  let head := stream.take 512
  if List.isPrefixOf pngMagic head then some .png
  else if List.isPrefixOf jpegMagic head then some .jpeg
  else if List.isPrefixOf gif87Magic head || List.isPrefixOf gif89Magic head then
    some .gif
  else if List.isPrefixOf riffMagic head && List.isPrefixOf webpTag (head.drop 8) then
    some .webp
  else none

/-- Fixed-width base-16 digit string (`k` digits, most significant first),
the embedding of Go `fmt.Sprintf("%08x", r)` when `k = 8`. -/
def toHexFixed : Nat → Nat → List Char
  | 0, _ => []
  | k + 1, n => toHexFixed k (n / 16) ++ [Nat.digitChar (n % 16)]

/-- Modelled from the spec: the stored filename
`<nanosecond timestamp>_<8-hex-digit random>.<ext>` (spec section 4.3,
step 5).  The random value is a 32-bit draw, modelled by reducing `rnd`
modulo `16 ^ 8`. -/
def mkFilename (ts rnd : Nat) (ext : String) : String :=
  String.mk (natDec ts ++ '_' :: (toHexFixed 8 (rnd % 16 ^ 8) ++ ext.data))

/-- Modelled from the spec: the Image Ingestor pipeline for one upload —
sniff the stream; an unrecognised signature is rejected with a 400-class
error and nothing is stored; otherwise the stream is persisted verbatim
under the constructed filename with the extension of the sniffed kind.
The nanosecond timestamp and the random draw are explicit inputs. -/
def ingestUpload (declaredMime origName : String) (stream : List Nat)
    (ts rnd : Nat) : Except Nat (String × List Nat) :=
  match sniffImage stream with
  | none => Except.error 400
  | some k => Except.ok (mkFilename ts rnd (extOf k), stream)

/-- Claim C7: a stream whose first 512 bytes begin with the PNG magic
number is accepted and stored with a `.png` extension; the outcome is
independent of the client-declared content type and the original filename;
and a stream with no recognised signature is rejected with a 400-class
error with nothing written to storage. -/
theorem ingest_png_and_reject (d d2 o o2 : String) (stream : List Nat)
    (ts rnd : Nat) :
    (List.isPrefixOf pngMagic (stream.take 512) = true →
      ingestUpload d o stream ts rnd =
        Except.ok (mkFilename ts rnd ".png", stream) ∧
      ∃ pre, (mkFilename ts rnd ".png").data = pre ++ ['.', 'p', 'n', 'g']) ∧
    ingestUpload d o stream ts rnd = ingestUpload d2 o2 stream ts rnd ∧
    (sniffImage stream = none → ingestUpload d o stream ts rnd = Except.error 400) := by
  refine ⟨?_, rfl, ?_⟩
  · intro h
    constructor
    · simp [ingestUpload, sniffImage, h, extOf]
    · refine ⟨natDec ts ++ '_' :: toHexFixed 8 (rnd % 16 ^ 8), ?_⟩
      unfold mkFilename
      simp [List.append_assoc]
  · intro h
    unfold ingestUpload
    rw [h]

/-- Witness for C7: a stream that is exactly the PNG magic number is
accepted with a `.png` name regardless of a hostile declared type and
filename, and an unrecognisable stream is rejected with 400. -/
theorem ingest_png_and_reject_witness :
    ingestUpload "text/plain" "evil.txt" pngMagic 1 2 =
      Except.ok (mkFilename 1 2 ".png", pngMagic) ∧
    ingestUpload "image/png" "ok.png" [0, 1, 2] 1 2 = Except.error 400 :=
  ⟨((ingest_png_and_reject "text/plain" "x" "evil.txt" "y" pngMagic 1 2).1
      (by decide)).1,
   (ingest_png_and_reject "image/png" "x" "ok.png" "y" [0, 1, 2] 1 2).2.2
      (by decide)⟩

/-- Length of a fixed-width hex digit string. -/
theorem toHexFixed_length (k : Nat) : ∀ n, (toHexFixed k n).length = k := by
  induction k with
  | zero => intro n; rfl
  | succ k ih =>
      intro n
      unfold toHexFixed
      rw [List.length_append, ih (n / 16)]
      rfl

/-- Nat.digitChar is injective below 16. -/
theorem digitChar_inj (a b : Nat) (ha : a < 16) (hb : b < 16)
    (h : Nat.digitChar a = Nat.digitChar b) : a = b := by
  have H : ∀ x y : Fin 16, Nat.digitChar x.val = Nat.digitChar y.val → x = y := by
    decide
  exact congrArg Fin.val (H ⟨a, ha⟩ ⟨b, hb⟩ h)

/-- Fixed-width hex printing is injective below `16 ^ k`. -/
theorem toHexFixed_inj (k : Nat) :
    ∀ m n, m < 16 ^ k → n < 16 ^ k → toHexFixed k m = toHexFixed k n → m = n := by
  induction k with
  | zero => intro m n hm hn _; omega
  | succ k ih =>
      intro m n hm hn h
      unfold toHexFixed at h
      have hlen : (toHexFixed k (m / 16)).length = (toHexFixed k (n / 16)).length := by
        rw [toHexFixed_length, toHexFixed_length]
      rcases List.append_inj h hlen with ⟨hl, hr⟩
      have hdiv : m / 16 = n / 16 := by
        refine ih (m / 16) (n / 16) ?_ ?_ hl
        · exact Nat.div_lt_of_lt_mul (by rw [Nat.pow_succ] at hm; omega)
        · exact Nat.div_lt_of_lt_mul (by rw [Nat.pow_succ] at hn; omega)
      have hmod : m % 16 = n % 16 := by
        have hx : Nat.digitChar (m % 16) = Nat.digitChar (n % 16) :=
          List.singleton_injective hr
        exact digitChar_inj _ _ (Nat.mod_lt _ (by norm_num))
          (Nat.mod_lt _ (by norm_num)) hx
      have h1 := Nat.div_add_mod m 16
      have h2 := Nat.div_add_mod n 16
      omega

/-- Claim C8 counterexample: the claim as stated — any two uploads within
the same nanosecond timestamp always receive distinct filenames — is false,
because the scheme is only probabilistic: when the two 8-hex-digit random
draws coincide (here both zero, at timestamp zero), the two filenames are
identical. -/
theorem mkFilename_collision :
    ¬ (∀ ts r1 r2 : Nat, mkFilename ts r1 ".png" ≠ mkFilename ts r2 ".png") :=
  fun h => h 0 0 0 rfl

/-- Claim C8 (amended): two uploads accepted within the same
nanosecond-resolution timestamp receive distinct filenames of the form
`<nanosecond timestamp>_<8-hex-digit random>.<ext>` whenever their 32-bit
random suffixes differ — the random-suffix collision guard; the uniqueness
guarantee is probabilistic, not absolute. -/
theorem mkFilename_distinct (ts r1 r2 : Nat) (e : String)
    (h : r1 % 16 ^ 8 ≠ r2 % 16 ^ 8) :
    mkFilename ts r1 e ≠ mkFilename ts r2 e := by
  intro heq
  have hd : (mkFilename ts r1 e).data = (mkFilename ts r2 e).data := by rw [heq]
  unfold mkFilename at hd
  simp only at hd
  have h1 := List.append_cancel_left hd
  have h2 : toHexFixed 8 (r1 % 16 ^ 8) ++ e.data =
      toHexFixed 8 (r2 % 16 ^ 8) ++ e.data := by
    injection h1
  have h3 := List.append_cancel_right h2
  exact h (toHexFixed_inj 8 _ _ (Nat.mod_lt _ (by norm_num))
    (Nat.mod_lt _ (by norm_num)) h3)

/-- Witness for C8: two concrete uploads in the same timestamp tick with
different random draws get different names. -/
theorem mkFilename_distinct_witness :
    mkFilename 123 0 ".png" ≠ mkFilename 123 1 ".png" :=
  mkFilename_distinct 123 0 1 ".png" (by decide)

/-- Embedding of Go `strings.TrimPrefix`: drop the leading occurrence of
`p` when `s` starts with it, otherwise return `s` unchanged. -/
def trimPfx (s p : String) : String :=
  if List.isPrefixOf p.data s.data then String.mk (s.data.drop p.data.length) else s

/-- Embedding of Go `path.Base`: the last element of a path — an empty
input yields `"."`, trailing slashes are stripped, everything up to and
including the last slash is dropped, and an all-slash input yields
`"/"`. -/
def goPathBase (s : String) : String :=
  if s.data = [] then "."
  else
    let stripped := (s.data.reverse.dropWhile (fun c => c == '/')).reverse
    let last := (stripped.reverse.takeWhile (fun c => c != '/')).reverse
    if last = [] then "/" else String.mk last

/-- Identifier extraction of the stdlib-variant `handleRecipe` (main.go
lines 521-522): strip the `/recipes/` prefix, then take the last path
element. -/
def extractRecipeId (p : String) : String := goPathBase (trimPfx p "/recipes/")

/-- Embedding of the stdlib-variant `handleRecipe` fetch-outcome dispatch
(main.go lines 528-541); identical branch structure to the Gin variant but
the content template is `recipe.html`. -/
def handleRecipeStd (res : Except String (Option Recipe)) : Rendered Recipe :=
  match res with
  | .error _ =>
      .errorPage 500 "Could not load recipe"
        "The recipe could not be loaded. Please try again later."
  | .ok none =>
      .errorPage 404 "Recipe not found"
        "This recipe does not exist or is no longer available."
  | .ok (some r) => .page 200 "recipe.html" r

/-- Response of the routed stdlib recipe handler: an HTTP redirect (status
and Location) or a rendered page. -/
inductive RouteResult where
  | redirect : Nat → String → RouteResult
  | html : Rendered Recipe → RouteResult
deriving DecidableEq

/-- Embedding of the full stdlib-variant `handleRecipe` (main.go lines
520-542): extract the identifier from the request path; if it is `""`,
`"."` or `"/"`, redirect to `/` with HTTP 302 (`http.StatusFound`);
otherwise fetch from the upstream (represented by the function `u` from
identifier to fetch outcome) and dispatch on the outcome. -/
def handleRecipeRouted (p : String)
    (u : String → Except String (Option Recipe)) : RouteResult :=
  let id := extractRecipeId p
  if id = "" ∨ id = "." ∨ id = "/" then RouteResult.redirect 302 "/"
  else RouteResult.html (handleRecipeStd (u id))

/-- Claim C10: the stdlib recipe handler takes the last path element after
stripping the `/recipes/` prefix as the identifier; when that identifier is
empty, `"."` or `"/"` it responds with an HTTP 302 redirect to `/` without
contacting the upstream service (the response is independent of the
upstream function); otherwise it serves the fetch outcome for exactly the
extracted identifier. -/
theorem routed_redirect (p : String)
    (u v : String → Except String (Option Recipe)) :
    ((extractRecipeId p = "" ∨ extractRecipeId p = "." ∨ extractRecipeId p = "/") →
      handleRecipeRouted p u = RouteResult.redirect 302 "/" ∧
      handleRecipeRouted p u = handleRecipeRouted p v) ∧
    (¬ (extractRecipeId p = "" ∨ extractRecipeId p = "." ∨ extractRecipeId p = "/") →
      handleRecipeRouted p u =
        RouteResult.html (handleRecipeStd (u (extractRecipeId p)))) := by
  constructor
  · intro h
    constructor <;> simp [handleRecipeRouted, h]
  · intro h
    simp [handleRecipeRouted, h]

/-- Upstream stub that reports every recipe as missing. -/
def upNone : String → Except String (Option Recipe) := fun _ => Except.ok none

/-- Upstream stub that fails every fetch. -/
def upBoom : String → Except String (Option Recipe) := fun _ => Except.error "boom"

/-- Witness for C10: the path `/recipes/` (identifier normalises to `"."`)
redirects, does so identically under two different upstreams, and the path
`/recipes/a/b` serves the outcome for the last element `b`. -/
theorem routed_redirect_witness :
    handleRecipeRouted "/recipes/" upNone = RouteResult.redirect 302 "/" ∧
    handleRecipeRouted "/recipes/" upNone = handleRecipeRouted "/recipes/" upBoom ∧
    handleRecipeRouted "/recipes/a/b" upNone =
      RouteResult.html (handleRecipeStd (upNone "b")) := by
  have h1 := (routed_redirect "/recipes/" upNone upBoom).1 (by decide)
  have h2 := (routed_redirect "/recipes/a/b" upNone upBoom).2 (by decide)
  have he : extractRecipeId "/recipes/a/b" = "b" := by decide
  rw [he] at h2
  exact ⟨h1.1, h1.2, h2⟩

/-- Per-process server state of the stdlib variant: the compiled template
set, built once at startup (`loadTemplates`) and only ever read by the
request handlers. -/
structure ServerState where
  templates : List (String × String)

/-- One request through the stdlib recipe read path, as a state-passing
step: the handler reads the template set but writes no state, so the state
component is returned unchanged. -/
def recipeReadStep (st : ServerState) (p : String)
    (u : String → Except String (Option Recipe)) : ServerState × RouteResult :=
  (st, handleRecipeRouted p u)

/-- Claim C9: the recipe read path is deterministic and idempotent — a
request mutates no server state, a second identical request after the
first produces identical rendered output, and the output depends only on
the request path and on the upstream response for the extracted identifier
(two upstreams that agree on that identifier give structurally identical
output). -/
theorem recipeRead_deterministic (st : ServerState) (p : String)
    (u1 u2 : String → Except String (Option Recipe))
    (h : u1 (extractRecipeId p) = u2 (extractRecipeId p)) :
    (recipeReadStep st p u1).1 = st ∧
    (recipeReadStep ((recipeReadStep st p u1).1) p u1).2 =
      (recipeReadStep st p u1).2 ∧
    (recipeReadStep st p u1).2 = (recipeReadStep st p u2).2 := by
  refine ⟨rfl, rfl, ?_⟩
  simp only [recipeReadStep]
  unfold handleRecipeRouted
  by_cases hid : extractRecipeId p = "" ∨ extractRecipeId p = "." ∨
    extractRecipeId p = "/"
  · simp [hid]
  · simp [hid, h]

/-- Upstream stub that finds `abc` and fails on everything else. -/
def upAbc : String → Except String (Option Recipe) :=
  fun s => if s = "abc" then Except.ok (some exRecipe) else Except.error "down"

/-- Upstream stub that finds every recipe. -/
def upConst : String → Except String (Option Recipe) :=
  fun _ => Except.ok (some exRecipe)

/-- Witness for C9: a concrete request leaves the state unchanged and two
upstreams agreeing on the requested id give identical output. -/
theorem recipeRead_deterministic_witness :
    (recipeReadStep ⟨[]⟩ "/recipes/abc" upAbc).1 = (⟨[]⟩ : ServerState) ∧
    (recipeReadStep ⟨[]⟩ "/recipes/abc" upAbc).2 =
      (recipeReadStep ⟨[]⟩ "/recipes/abc" upConst).2 :=
  ⟨(recipeRead_deterministic ⟨[]⟩ "/recipes/abc" upAbc upConst rfl).1,
   (recipeRead_deterministic ⟨[]⟩ "/recipes/abc" upAbc upConst rfl).2.2⟩

end Platify
